import Mathlib

/-!
Verification of the playlist aggregation pipeline of
`src/yt-playlist-watchtime/src/app/api/playlist-info/route.ts`.

The pure helpers (`extractPlaylistId`, `formatDuration`,
`parseISO8601Duration`) are embedded directly.  The `POST` handler is
embedded as a function of the oracle data it consumes: whether the API
key is configured, the request body, and a `Collaborator` record holding
the predetermined outcomes of the network calls (playlist metadata
lookup, the page sequence of the membership listing, the batched video
detail lookups).  Thrown upstream errors are modelled by the
`UpstreamError` record carrying exactly the fields the handler inspects.
-/

namespace YtPlaylist

/-! ## Duration parsing (`parseISO8601Duration`, route.ts lines 49-74)

The source matches the string against the unanchored regular expression
`PT(?:(\d+)H)?(?:(\d+)M)?(?:(\d+)S)?` and combines the decimal values of
the captured groups.  Since every group is optional, the leftmost match
starts at the first occurrence of the literal `PT`; and since none of
the marker letters is a digit, greedy digit matching followed by a
marker test is exact (no backtracking can succeed where it fails). -/

/-- Decimal value of a digit string, as computed by `parseInt(s, 10)`
on an all-digit string. -/
def digitsVal (ds : List Char) : Nat :=
  ds.foldl (fun a c => 10 * a + (c.toNat - 48)) 0

/-- One optional regex component `(?:(\d+)X)?` at the head of `cs`:
greedily take digits, then require the marker letter; on failure consume
nothing and capture nothing. -/
def tryComp (marker : Char) (cs : List Char) : Option Nat × List Char :=
  let ds := cs.takeWhile Char.isDigit
  match cs.dropWhile Char.isDigit with
  | [] => (none, cs)
  | c :: rest =>
    if ds ≠ [] ∧ c = marker then (some (digitsVal ds), rest) else (none, cs)

/-- Leftmost occurrence of the literal `PT`; returns the remainder after
it, i.e. where the optional components are matched. -/
def findPT : List Char → Option (List Char)
  | 'P' :: 'T' :: rest => some rest
  | _ :: rest => findPT rest
  | [] => none

/-- `durationString.match(/PT(?:(\d+)H)?(?:(\d+)M)?(?:(\d+)S)?/)`:
`none` when there is no match, otherwise the three captured groups. -/
def execDurationRegex (cs : List Char) :
    Option (Option Nat × Option Nat × Option Nat) :=
  match findPT cs with
  | none => none
  | some r0 =>
    let hr := tryComp 'H' r0
    let mr := tryComp 'M' hr.2
    let sr := tryComp 'S' mr.2
    some (hr.1, mr.1, sr.1)

/-- `parseISO8601Duration` (route.ts lines 49-74).  An empty string is
falsy and returns 0 at once; a string the regex does not match returns
0; otherwise the captured groups (missing groups read as `'0'`) are
combined as `hours*3600 + minutes*60 + seconds`.  The function is total:
no input reaches the catch/fallback path in the source, which exists
only for a manual-parse exception that cannot occur. -/
def parseISO8601Duration (durationString : String) : Nat :=
  if durationString = "" then 0
  else
    match execDurationRegex durationString.data with
    | none => 0
    | some (h, m, s) => h.getD 0 * 3600 + m.getD 0 * 60 + s.getD 0

/-! ## Duration formatting (`formatDuration`, route.ts lines 35-45) -/

/-- JavaScript `String.prototype.padStart` with a pad character:
left-pad to length `n` (no-op when already at least that long). -/
def padStart (s : String) (n : Nat) (c : Char) : String :=
  ⟨List.replicate (n - s.data.length) c ++ s.data⟩

/-- `formatDuration` (route.ts lines 35-45) on an integer second count:
`Math.floor` on integer inputs is integer division. -/
def formatDuration (totalSeconds : Nat) : String :=
  let hours := totalSeconds / 3600
  let minutes := totalSeconds % 3600 / 60
  let seconds := totalSeconds % 60
  let hoursStr := if hours > 0 then Nat.repr hours ++ ":" else ""
  let minutesStr := padStart (Nat.repr minutes) (if hours > 0 then 2 else 1) '0'
  let secondsStr := padStart (Nat.repr seconds) 2 '0'
  hoursStr ++ minutesStr ++ ":" ++ secondsStr

/-- JavaScript `%` (truncated remainder) on the nonnegative operands the
pipeline produces, where truncation coincides with the floor. -/
def jsMod (q m : ℚ) : ℚ := q - m * (⌊q / m⌋₊ : ℚ)

/-- `formatDuration` (route.ts lines 35-45) on a nonnegative rational
second count, as reached by the derived average: each stage applies
`Math.floor`, modelled by `Nat.floor` (equal on nonnegative inputs). -/
def formatDurationRat (totalSeconds : ℚ) : String :=
  let hours := ⌊totalSeconds / 3600⌋₊
  let minutes := ⌊jsMod totalSeconds 3600 / 60⌋₊
  let seconds := ⌊jsMod totalSeconds 60⌋₊
  let hoursStr := if hours > 0 then Nat.repr hours ++ ":" else ""
  let minutesStr := padStart (Nat.repr minutes) (if hours > 0 then 2 else 1) '0'
  let secondsStr := padStart (Nat.repr seconds) 2 '0'
  hoursStr ++ minutesStr ++ ":" ++ secondsStr

/-! ## Playlist-id extraction (`extractPlaylistId`, route.ts lines 20-32)

`new URL(url)` is a platform builtin; the embedding abstracts it as a
`parseUrl` oracle returning the ordered query parameters on success and
`none` when the constructor throws.  `searchParams.get` returns the
first parameter with the given name. -/

/-- One character of the class `[a-zA-Z0-9_-]`. -/
def isPlaylistIdChar (c : Char) : Bool :=
  c.isAlpha || c.isDigit || c = '_' || c = '-'

/-- `/^[a-zA-Z0-9_-]+$/.test s`. -/
def regexTestPlaylistId (s : String) : Bool :=
  !s.data.isEmpty && s.data.all isPlaylistIdChar

/-- `searchParams.get(k)`: first value bound to `k`, else `null`. -/
def getSearchParam (ps : List (String × String)) (k : String) : Option String :=
  (ps.find? (fun p => p.1 == k)).map Prod.snd

/-- `extractPlaylistId` (route.ts lines 20-32): parse the URL, read the
`list` query parameter, and accept it only when truthy and matching
`^[a-zA-Z0-9_-]+$`; every failure returns `null`. -/
def extractPlaylistId (parseUrl : String → Option (List (String × String)))
    (url : String) : Option String :=
  match parseUrl url with
  | none => none
  | some ps =>
    match getSearchParam ps "list" with
    | none => none
    | some playlistId =>
      if playlistId != "" && regexTestPlaylistId playlistId then some playlistId
      else none

/-- Modelled from the spec: a stand-in for the platform WHATWG URL
parser (`new URL`), which is not part of this repository.  It succeeds
exactly on strings with an `http(s)://` scheme and reads the query
string after the first `?` as `&`-separated `key=value` pairs.  Used
only to instantiate the parametric theorems on the concrete example
URLs of the spec. -/
def simpleParseUrl (url : String) : Option (List (String × String)) :=
  if ("https://".data.isPrefixOf url.data || "http://".data.isPrefixOf url.data) then
    match url.data.dropWhile (fun c => c ≠ '?') with
    | [] => some []
    | _ :: q =>
      some ((q.splitOn '&').map (fun kv =>
        (⟨kv.takeWhile (fun c => c ≠ '=')⟩,
         match kv.dropWhile (fun c => c ≠ '=') with
         | [] => ""
         | _ :: v => ⟨v⟩)))
  else none

/-! ## The `POST` handler (route.ts lines 76-237) -/

/-- The playlist metadata the handler copies out of the first snippet
(route.ts lines 12-17, 105-110). -/
structure PlaylistDetails where
  title : Option String
  description : Option String
  channelTitle : Option String
  publishedAt : Option String
deriving DecidableEq

/-- `error.response.data.error` of a thrown upstream error: its
`message` and, when the `errors` array is nonempty, the `reason` and
`message` of `errors[0]`. -/
structure ApiErrorInfo where
  message : Option String
  firstError : Option (String × String)
deriving DecidableEq

/-- A thrown error as the handler observes it: the optional structured
API error and the numeric `error.response.status` when present. -/
structure UpstreamError where
  apiError : Option ApiErrorInfo
  respStatus : Option Nat
deriving DecidableEq

/-- `error.response?.data?.error?.errors?.[0]?.reason`. -/
def UpstreamError.reason (e : UpstreamError) : Option String :=
  (e.apiError.bind ApiErrorInfo.firstError).map Prod.fst

/-- One page of the membership listing: each item's
`contentDetails?.videoId` (possibly absent) and the continuation
token. -/
structure Page where
  items : List (Option String)
  nextPageToken : Option String
deriving DecidableEq

/-- The predetermined outcomes of the collaborator calls one run
consumes: the metadata lookup (`ok none` when the response has no
items), the successive page responses of the membership listing, and
the batched video detail responses, each item carrying its
`contentDetails?.duration`. -/
structure Collaborator where
  detailsResult : Except UpstreamError (Option PlaylistDetails)
  pageResults : List (Except UpstreamError Page)
  videoResults : List (Except UpstreamError (List (Option String)))

/-- The serialized response: HTTP status, the `error` payload of error
responses, and the fields of success responses. -/
structure ApiResponse where
  status : Nat
  error : Option String
  details : Option PlaylistDetails
  videoCount : Option Nat
  totalWatchTime : Option String
  averageDuration : Option String
  totalSeconds : Option Nat
deriving DecidableEq

def apiKeyMissingMsg : String := "Server configuration error: API key missing."
def urlRequiredMsg : String := "Playlist URL is required."
def invalidUrlMsg : String := "Invalid YouTube Playlist URL format."
def notFoundMsg : String := "Playlist not found. Check the URL or playlist privacy settings."
def forbiddenMsg : String := "Access forbidden. The playlist might be private or deleted."
def keyInvalidMsg : String := "Invalid API Key. Please check server configuration."
def quotaMsg : String := "API Quota Exceeded. Please try again later."
def genericMsg : String := "Failed to fetch playlist information due to an unexpected server error."

/-- `NextResponse.json({ error }, { status })`. -/
def errorResponse (msg : String) (status : Nat) : ApiResponse :=
  { status := status, error := some msg, details := none, videoCount := none,
    totalWatchTime := none, averageDuration := none, totalSeconds := none }

/-- The catch block (route.ts lines 203-236): with no structured API
error, a generic 500; otherwise dispatch on `errors[0].reason`, fixed
reasons mapping to fixed responses and anything else echoing a
`YouTube API Error` message with the upstream status (500 when the
status is not a number). -/
def catchHandler (e : UpstreamError) : ApiResponse :=
  match e.apiError with
  | none => errorResponse genericMsg 500
  | some ytError =>
    match ytError.firstError with
    | some (reason, errMsg) =>
      if reason = "playlistNotFound" then errorResponse notFoundMsg 404
      else if reason = "forbidden" then errorResponse forbiddenMsg 403
      else if reason = "keyInvalid" then errorResponse keyInvalidMsg 400
      else if reason = "quotaExceeded" ∨ reason = "rateLimitExceeded" ∨
          reason = "userRateLimitExceeded" then errorResponse quotaMsg 429
      else errorResponse ("YouTube API Error (" ++ reason ++ "): " ++ errMsg)
        (e.respStatus.getD 500)
    | none =>
      errorResponse
        ("YouTube API Error: " ++
          (match ytError.message with
           | some m => if m ≠ "" then m else "Unknown error"
           | none => "Unknown error"))
        (e.respStatus.getD 500)

/-- Lines 140-144: map each page item to `contentDetails?.videoId` and
keep the truthy ones (present and nonempty). -/
def pageVideoIds (items : List (Option String)) : List String :=
  items.filterMap (fun o =>
    match o with
    | some s => if s ≠ "" then some s else none
    | none => none)

/-- `while (nextPageToken)`: the token is followed only when truthy. -/
def tokenTruthy : Option String → Bool
  | some s => s != ""
  | none => false

/-- The do/while pagination loop (route.ts lines 131-149) run against
the predetermined page responses: a thrown page fetch aborts with the
error, otherwise ids accumulate until a page without a truthy
continuation token. -/
def runPages : List (Except UpstreamError Page) → Except UpstreamError (List String)
  | [] => .ok []
  | .error e :: _ => .error e
  | .ok pg :: rest =>
    if tokenTruthy pg.nextPageToken then
      match runPages rest with
      | .error e => .error e
      | .ok ids => .ok (pageVideoIds pg.items ++ ids)
    else .ok (pageVideoIds pg.items)

/-- `Promise.all` over the batched video detail calls (route.ts lines
166-178): the first rejection aborts, otherwise the batches'
item lists are concatenated in order. -/
def joinBatches :
    List (Except UpstreamError (List (Option String))) →
      Except UpstreamError (List (Option String))
  | [] => .ok []
  | .error e :: _ => .error e
  | .ok items :: rest =>
    match joinBatches rest with
    | .error e => .error e
    | .ok more => .ok (items ++ more)

/-- The summing loop (route.ts lines 180-187): a truthy duration string
adds its parse to the accumulator, anything else is skipped. -/
def computeTotal (videoItems : List (Option String)) : Nat :=
  videoItems.foldl
    (fun acc it =>
      match it with
      | some d => if d ≠ "" then acc + parseISO8601Duration d else acc
      | none => acc) 0

/-- Line 192: `videoCount > 0 ? totalSeconds / videoCount : 0` in
rational (JavaScript number) arithmetic. -/
def averageSeconds (totalSeconds videoCount : Nat) : ℚ :=
  if videoCount > 0 then (totalSeconds : ℚ) / videoCount else 0

/-- The zero-item early return (route.ts lines 153-162). -/
def zeroVideosResponse (details : Option PlaylistDetails) : ApiResponse :=
  { status := 200, error := none, details := details, videoCount := some 0,
    totalWatchTime := some "0:00", averageDuration := some "0:00",
    totalSeconds := some 0 }

/-- The success response (route.ts lines 190-201). -/
def successResponse (details : Option PlaylistDetails)
    (videoCount totalSeconds : Nat) : ApiResponse :=
  { status := 200, error := none, details := details,
    videoCount := some videoCount,
    totalWatchTime := some (formatDuration totalSeconds),
    averageDuration :=
      some (formatDurationRat (averageSeconds totalSeconds videoCount)),
    totalSeconds := some totalSeconds }

/-- The pipeline from the membership fetch on (route.ts lines 127-201),
with the playlist details already settled; page and batch failures are
thrown to the catch block. -/
def afterDetails (details : Option PlaylistDetails) (collab : Collaborator) :
    ApiResponse :=
  match runPages collab.pageResults with
  | .error e => catchHandler e
  | .ok videoIds =>
    if videoIds.length = 0 then zeroVideosResponse details
    else
      match joinBatches collab.videoResults with
      | .error e => catchHandler e
      | .ok videoItems =>
        successResponse details videoIds.length (computeTotal videoItems)

/-- The `POST` handler (route.ts lines 76-237).  `body` is the outcome
of `req.json()` followed by the `playlistUrl` checks collapsed to
`none` when missing, non-string or empty.  A metadata-lookup error is
fatal exactly when its reason is `playlistNotFound`; otherwise it is
swallowed and the run continues with empty details. -/
def POST (apiKeySet : Bool)
    (parseUrl : String → Option (List (String × String)))
    (body : Except UpstreamError (Option String)) (collab : Collaborator) :
    ApiResponse :=
  if !apiKeySet then errorResponse apiKeyMissingMsg 500
  else
    match body with
    | .error e => catchHandler e
    | .ok none => errorResponse urlRequiredMsg 400
    | .ok (some playlistUrl) =>
      match extractPlaylistId parseUrl playlistUrl with
      | none => errorResponse invalidUrlMsg 400
      | some _ =>
        match collab.detailsResult with
        | .error e =>
          if e.reason = some "playlistNotFound" then errorResponse notFoundMsg 404
          else afterDetails none collab
        | .ok d => afterDetails d collab

/-! ## Spec-side definitions, following the specification's words -/

/-- The error taxonomy of spec §7. -/
inductive ErrClass where
  | success
  | invalidInput
  | notFound
  | forbidden
  | invalidCredential
  | rateLimited
  | genericServerError
deriving DecidableEq

/-- Classification of a response by its observable shape: the fixed
(status, message) pairs of the taxonomy, every other error being the
generic class. -/
def classify (r : ApiResponse) : ErrClass :=
  match r.error with
  | none => .success
  | some msg =>
    if r.status = 404 ∧ msg = notFoundMsg then .notFound
    else if r.status = 403 ∧ msg = forbiddenMsg then .forbidden
    else if r.status = 400 ∧ msg = keyInvalidMsg then .invalidCredential
    else if r.status = 429 ∧ msg = quotaMsg then .rateLimited
    else if r.status = 400 ∧ (msg = urlRequiredMsg ∨ msg = invalidUrlMsg) then
      .invalidInput
    else .genericServerError

/-- The spec's reason-code mapping (spec §7): playlist-not-found to
not-found, access denial to forbidden, bad key to invalid-credential,
quota and rate limits to rate-limited, everything else generic. -/
def upstreamClass (e : UpstreamError) : ErrClass :=
  match e.reason with
  | some r =>
    if r = "playlistNotFound" then .notFound
    else if r = "forbidden" then .forbidden
    else if r = "keyInvalid" then .invalidCredential
    else if r = "quotaExceeded" ∨ r = "rateLimitExceeded" ∨
        r = "userRateLimitExceeded" then .rateLimited
    else .genericServerError
  | none => .genericServerError

/-- Spec-side total: the sum of the parsed `ItemDuration`s, a missing
duration contributing zero. -/
def sumItemDurations (videoItems : List (Option String)) : Nat :=
  (videoItems.map (fun o => (o.map parseISO8601Duration).getD 0)).sum

/-- Spec-side two-digit zero padding. -/
def pad2 (k : Nat) : String :=
  if k < 10 then "0" ++ Nat.repr k else Nat.repr k

/-- Value of an optional duration component given as its digit
characters. -/
def componentVal : Option (List Char) → Nat
  | none => 0
  | some ds => digitsVal ds

/-- Rendering of an optional component: digits followed by the marker
letter, or nothing. -/
def componentChars : Option (List Char) → Char → List Char
  | none, _ => []
  | some ds, marker => ds ++ [marker]

/-- A valid duration encoding `PT[dH][dM][dS]` with each component
optional, given by its digit strings. -/
def mkDurationString (hc mc sc : Option (List Char)) : String :=
  ⟨'P' :: 'T' ::
    (componentChars hc 'H' ++ componentChars mc 'M' ++ componentChars sc 'S')⟩

/-- A component is absent, or a nonempty digit string. -/
def validComponent : Option (List Char) → Prop
  | none => True
  | some ds => ds ≠ [] ∧ ds.all Char.isDigit = true

instance : DecidablePred validComponent := fun o =>
  match o with
  | none => .isTrue trivial
  | some ds => inferInstanceAs (Decidable (ds ≠ [] ∧ ds.all Char.isDigit = true))

end YtPlaylist

namespace YtPlaylist

/-! ## Helper lemmas -/

theorem takeWhile_digits (ds : List Char) (hds : ds.all Char.isDigit = true)
    (c : Char) (hc : c.isDigit = false) (rest : List Char) :
    (ds ++ c :: rest).takeWhile Char.isDigit = ds ∧
      (ds ++ c :: rest).dropWhile Char.isDigit = c :: rest := by
  induction ds with
  | nil => simp [List.takeWhile_cons, List.dropWhile_cons, hc]
  | cons d ds ih =>
    rw [List.all_cons, Bool.and_eq_true] at hds
    simp [List.takeWhile_cons, List.dropWhile_cons, hds.1, ih hds.2]

theorem tryComp_hit (marker : Char) (hm : marker.isDigit = false)
    (ds : List Char) (h1 : ds ≠ []) (h2 : ds.all Char.isDigit = true)
    (rest : List Char) :
    tryComp marker (ds ++ marker :: rest) = (some (digitsVal ds), rest) := by
  have h := takeWhile_digits ds h2 marker hm rest
  simp [tryComp, h.1, h.2, h1]

theorem tryComp_miss (marker : Char) (ds : List Char)
    (h2 : ds.all Char.isDigit = true) (c : Char) (hc : c.isDigit = false)
    (hne : c ≠ marker) (rest : List Char) :
    tryComp marker (ds ++ c :: rest) = (none, ds ++ c :: rest) := by
  have h := takeWhile_digits ds h2 c hc rest
  simp [tryComp, h.1, h.2, hne]

theorem tryComp_nil (marker : Char) : tryComp marker [] = (none, []) := rfl

theorem findPT_eq_none_iff (cs : List Char) :
    findPT cs = none ↔ ¬ (['P', 'T'] <:+: cs) := by
  induction cs using findPT.induct with
  | case1 rest =>
    simp only [findPT]
    constructor
    · intro h; exact absurd h (by simp)
    · intro h; exact absurd ⟨[], rest, rfl⟩ h
  | case2 c rest hpat ih =>
    rw [findPT.eq_2 c rest hpat, ih]
    constructor
    · intro hno hin
      obtain ⟨s, t, hst⟩ := hin
      cases s with
      | nil =>
        simp only [List.nil_append, List.cons_append] at hst
        injection hst with hP htl
        exact hpat t hP.symm htl.symm
      | cons a s' =>
        simp only [List.cons_append] at hst
        injection hst with ha htl
        exact hno ⟨s', t, htl⟩
    · intro hno hin
      obtain ⟨s, t, hst⟩ := hin
      refine hno ⟨c :: s, t, ?_⟩
      simp only [List.cons_append, hst]
  | case3 => simp [findPT]

theorem pad_two_of_lt : ∀ m, m < 60 → padStart (Nat.repr m) 2 '0' = pad2 m := by
  decide

theorem pad_one_of_lt : ∀ m, m < 60 → padStart (Nat.repr m) 1 '0' = Nat.repr m := by
  decide

theorem empty_append_str (s : String) : "" ++ s = s := by
  cases s; rfl

theorem floor_jsMod (q : ℚ) (n : ℕ) :
    ⌊jsMod q (n : ℚ)⌋₊ = ⌊q⌋₊ % n := by
  unfold jsMod
  rw [Nat.floor_div_nat q n]
  have hcast : (n : ℚ) * ((⌊q⌋₊ / n : ℕ) : ℚ) = ((n * (⌊q⌋₊ / n) : ℕ) : ℚ) := by
    push_cast; ring
  rw [hcast, Nat.floor_sub_nat]
  have hdm := Nat.div_add_mod ⌊q⌋₊ n
  omega

theorem computeTotal_go (videoItems : List (Option String)) :
    ∀ acc : Nat,
      videoItems.foldl
        (fun acc it =>
          match it with
          | some d => if d ≠ "" then acc + parseISO8601Duration d else acc
          | none => acc) acc = acc + sumItemDurations videoItems := by
  induction videoItems with
  | nil => intro acc; simp [sumItemDurations]
  | cons it rest ih =>
    intro acc
    cases it with
    | none =>
      refine (ih acc).trans ?_
      simp [sumItemDurations]
    | some d =>
      by_cases hd : d = ""
      · subst hd
        refine (ih acc).trans ?_
        simp [sumItemDurations, parseISO8601Duration]
      · simp only [List.foldl_cons]
        change List.foldl _
          (if d ≠ "" then acc + parseISO8601Duration d else acc) rest = _
        rw [if_pos hd]
        refine (ih (acc + parseISO8601Duration d)).trans ?_
        have hsum : sumItemDurations (some d :: rest) =
            parseISO8601Duration d + sumItemDurations rest := by
          simp [sumItemDurations]
        rw [hsum]
        omega

theorem pageVideoIds_length (items : List (Option String)) :
    (pageVideoIds items).length = items.countP tokenTruthy := by
  induction items with
  | nil => rfl
  | cons it rest ih =>
    cases it with
    | none =>
      simp [pageVideoIds, List.filterMap_cons, List.countP_cons,
        tokenTruthy] at ih ⊢
      omega
    | some s =>
      by_cases hs : s = ""
      · subst hs
        simp [pageVideoIds, List.filterMap_cons, List.countP_cons,
          tokenTruthy] at ih ⊢
        omega
      · simp [pageVideoIds, List.filterMap_cons, List.countP_cons,
          tokenTruthy, hs] at ih ⊢
        omega

theorem ytParen_ne (reason errMsg q : String) (hq : q.data.head? ≠ some 'Y') :
    "YouTube API Error (" ++ reason ++ "): " ++ errMsg ≠ q := by
  intro h
  apply hq
  rw [← h]
  rfl

theorem ytPlain_ne (m q : String) (hq : q.data.head? ≠ some 'Y') :
    "YouTube API Error: " ++ m ≠ q := by
  intro h
  apply hq
  rw [← h]
  rfl

theorem classify_paren (r em : String) (st : Nat) :
    classify (errorResponse ("YouTube API Error (" ++ r ++ "): " ++ em) st) =
      .genericServerError := by
  have h1 := ytParen_ne r em notFoundMsg (by decide)
  have h2 := ytParen_ne r em forbiddenMsg (by decide)
  have h3 := ytParen_ne r em keyInvalidMsg (by decide)
  have h4 := ytParen_ne r em quotaMsg (by decide)
  have h5 := ytParen_ne r em urlRequiredMsg (by decide)
  have h6 := ytParen_ne r em invalidUrlMsg (by decide)
  simp [classify, errorResponse, h1, h2, h3, h4, h5, h6]

theorem classify_plain (m : String) (st : Nat) :
    classify (errorResponse ("YouTube API Error: " ++ m) st) =
      .genericServerError := by
  have h1 := ytPlain_ne m notFoundMsg (by decide)
  have h2 := ytPlain_ne m forbiddenMsg (by decide)
  have h3 := ytPlain_ne m keyInvalidMsg (by decide)
  have h4 := ytPlain_ne m quotaMsg (by decide)
  have h5 := ytPlain_ne m urlRequiredMsg (by decide)
  have h6 := ytPlain_ne m invalidUrlMsg (by decide)
  simp [classify, errorResponse, h1, h2, h3, h4, h5, h6]

theorem classify_catchHandler (e : UpstreamError) :
    classify (catchHandler e) = upstreamClass e := by
  obtain ⟨apiErr, rs⟩ := e
  cases apiErr with
  | none => rfl
  | some yt =>
    obtain ⟨msg, fe⟩ := yt
    cases fe with
    | none =>
      simp only [catchHandler, upstreamClass, UpstreamError.reason, Option.bind,
        Option.map]
      exact classify_plain _ _
    | some p =>
      obtain ⟨r, em⟩ := p
      by_cases h1 : r = "playlistNotFound"
      · subst h1; rfl
      · by_cases h2 : r = "forbidden"
        · subst h2; rfl
        · by_cases h3 : r = "keyInvalid"
          · subst h3; rfl
          · by_cases h4 : r = "quotaExceeded"
            · subst h4; rfl
            · by_cases h5 : r = "rateLimitExceeded"
              · subst h5; rfl
              · by_cases h6 : r = "userRateLimitExceeded"
                · subst h6; rfl
                · simp only [catchHandler, upstreamClass, UpstreamError.reason,
                    Option.bind, Option.map, h1, h2, h3, h4, h5, h6, if_false,
                    or_self, if_neg, not_false_iff]
                  exact classify_paren _ _ _

end YtPlaylist

namespace YtPlaylist

/-! ## Claim theorems -/

/-- C1: for every aggregation run over a list of per-item duration
strings, the reported totalSeconds equals the sum of the parsed
item durations (a missing duration contributing zero), and
averageSeconds equals totalSeconds / itemCount when itemCount > 0,
else 0. -/
theorem c1_totals_and_average :
    (∀ videoItems : List (Option String),
      computeTotal videoItems = sumItemDurations videoItems) ∧
    (∀ t c : Nat, averageSeconds t c = if c > 0 then (t : ℚ) / c else 0) ∧
    (∀ (details : Option PlaylistDetails) (videoItems : List (Option String))
        (count : Nat),
      (successResponse details count (computeTotal videoItems)).totalSeconds =
        some (sumItemDurations videoItems)) := by
  have hct : ∀ videoItems : List (Option String),
      computeTotal videoItems = sumItemDurations videoItems := by
    intro items
    exact (computeTotal_go items 0).trans (Nat.zero_add _)
  exact ⟨hct, fun t c => rfl, fun d items count => by simp [successResponse, hct]⟩

/-- C2: every valid duration encoding with optional hour, minute and
second components parses to H*3600 + M*60 + S, the components defaulting
to 0 when absent. -/
theorem c2_duration_components (hc mc sc : Option (List Char))
    (h1 : validComponent hc) (h2 : validComponent mc) (h3 : validComponent sc) :
    parseISO8601Duration (mkDurationString hc mc sc) =
      componentVal hc * 3600 + componentVal mc * 60 + componentVal sc := by
  have hne : mkDurationString hc mc sc ≠ "" := by
    intro h
    have h' := congrArg String.data h
    simp only [mkDurationString] at h'
    exact absurd h' (by simp)
  simp only [parseISO8601Duration, if_neg hne]
  have hdata : (mkDurationString hc mc sc).data =
      'P' :: 'T' ::
        (componentChars hc 'H' ++ componentChars mc 'M' ++
          componentChars sc 'S') := rfl
  rw [hdata]
  simp only [execDurationRegex, findPT]
  rcases hc with _ | hd <;> rcases mc with _ | md <;> rcases sc with _ | sd <;>
    simp only [componentChars, componentVal, List.nil_append, List.append_nil,
      List.append_assoc, List.cons_append, List.singleton_append]
  · simp [tryComp_nil]
  · obtain ⟨hs1, hs2⟩ := h3
    rw [tryComp_miss 'H' sd hs2 'S' (by decide) (by decide),
      tryComp_miss 'M' sd hs2 'S' (by decide) (by decide),
      tryComp_hit 'S' (by decide) sd hs1 hs2]
    simp
  · obtain ⟨hm1, hm2⟩ := h2
    rw [tryComp_miss 'H' md hm2 'M' (by decide) (by decide),
      tryComp_hit 'M' (by decide) md hm1 hm2, tryComp_nil]
    simp
  · obtain ⟨hm1, hm2⟩ := h2
    obtain ⟨hs1, hs2⟩ := h3
    rw [tryComp_miss 'H' md hm2 'M' (by decide) (by decide),
      tryComp_hit 'M' (by decide) md hm1 hm2,
      tryComp_hit 'S' (by decide) sd hs1 hs2]
    simp
  · obtain ⟨hh1, hh2⟩ := h1
    rw [tryComp_hit 'H' (by decide) hd hh1 hh2, tryComp_nil, tryComp_nil]
    simp
  · obtain ⟨hh1, hh2⟩ := h1
    obtain ⟨hs1, hs2⟩ := h3
    rw [tryComp_hit 'H' (by decide) hd hh1 hh2,
      tryComp_miss 'M' sd hs2 'S' (by decide) (by decide),
      tryComp_hit 'S' (by decide) sd hs1 hs2]
    simp
  · obtain ⟨hh1, hh2⟩ := h1
    obtain ⟨hm1, hm2⟩ := h2
    rw [tryComp_hit 'H' (by decide) hd hh1 hh2,
      tryComp_hit 'M' (by decide) md hm1 hm2, tryComp_nil]
    simp
  · obtain ⟨hh1, hh2⟩ := h1
    obtain ⟨hm1, hm2⟩ := h2
    obtain ⟨hs1, hs2⟩ := h3
    rw [tryComp_hit 'H' (by decide) hd hh1 hh2,
      tryComp_hit 'M' (by decide) md hm1 hm2,
      tryComp_hit 'S' (by decide) sd hs1 hs2]
    simp

/-- Witness for C2: `PT2H5M` parses to 2*3600 + 5*60 = 7500. -/
theorem c2_duration_components_witness :
    validComponent (some ['2']) ∧ validComponent (some ['5']) ∧
      parseISO8601Duration (mkDurationString (some ['2']) (some ['5']) none) =
        7500 :=
  ⟨by decide, by decide,
    (c2_duration_components (some ['2']) (some ['5']) none (by decide)
        (by decide) (by decide)).trans (by decide)⟩

/-- C3: the empty string and every string the duration pattern does not
match (no occurrence of the literal `PT`) parse to 0; the parser is a
total function, so no input raises an error. -/
theorem c3_unmatched_duration_zero :
    parseISO8601Duration "" = 0 ∧
      ∀ s : String, ¬ (['P', 'T'] <:+: s.data) → parseISO8601Duration s = 0 := by
  refine ⟨rfl, fun s hs => ?_⟩
  by_cases he : s = ""
  · simp [parseISO8601Duration, he]
  · simp only [parseISO8601Duration, if_neg he, execDurationRegex,
      (findPT_eq_none_iff s.data).2 hs]

/-- Witness for C3: `duration` contains no `PT` and parses to 0. -/
theorem c3_unmatched_duration_zero_witness :
    ¬ (['P', 'T'] <:+: ("duration" : String).data) ∧
      parseISO8601Duration "duration" = 0 :=
  ⟨by decide, c3_unmatched_duration_zero.2 "duration" (by decide)⟩

/-- C4: the formatter renders `H:MM:SS` when the hour component is
positive (minutes and seconds zero-padded to two digits) and `M:SS`
otherwise (minute unpadded); 0, 3661, 59 and 303 render as `0:00`,
`1:01:01`, `0:59` and `5:03`. -/
theorem c4_clock_format :
    (∀ n : Nat, formatDuration n =
      if n / 3600 > 0 then
        Nat.repr (n / 3600) ++ ":" ++ pad2 (n % 3600 / 60) ++ ":" ++
          pad2 (n % 60)
      else Nat.repr (n % 3600 / 60) ++ ":" ++ pad2 (n % 60)) ∧
    formatDuration 0 = "0:00" ∧ formatDuration 3661 = "1:01:01" ∧
    formatDuration 59 = "0:59" ∧ formatDuration 303 = "5:03" := by
  refine ⟨fun n => ?_, by decide, by decide, by decide, by decide⟩
  have hm : n % 3600 / 60 < 60 := by omega
  have hs : n % 60 < 60 := by omega
  simp only [formatDuration]
  by_cases h : n / 3600 > 0
  · rw [if_pos h, if_pos h, if_pos h, pad_two_of_lt _ hm, pad_two_of_lt _ hs]
  · rw [if_neg h, if_neg h, if_neg h, pad_one_of_lt _ hm, pad_two_of_lt _ hs,
      empty_append_str]

/-- C5: identifier extraction returns the `list` query parameter exactly
when the URL parses and the value is nonempty and drawn from
`[A-Za-z0-9_-]`; every parse failure, missing parameter or invalid value
yields the single invalid outcome `none`.  Instantiated on the spec's
example URLs with the stand-in URL parser. -/
theorem c5_extract_list_param :
    (∀ (parseUrl : String → Option (List (String × String))) (url v : String),
      extractPlaylistId parseUrl url = some v ↔
        ∃ ps, parseUrl url = some ps ∧ getSearchParam ps "list" = some v ∧
          v ≠ "" ∧ v.data.all isPlaylistIdChar = true) ∧
    extractPlaylistId simpleParseUrl "https://x/playlist?list=PL123_abc" =
      some "PL123_abc" ∧
    extractPlaylistId simpleParseUrl "https://x/playlist" = none ∧
    extractPlaylistId simpleParseUrl "https://x/playlist?list=PL!23" = none := by
  refine ⟨fun parseUrl url v => ?_, by decide, by decide, by decide⟩
  constructor
  · intro h
    unfold extractPlaylistId at h
    split at h
    · exact absurd h (by simp)
    · rename_i ps hp
      split at h
      · exact absurd h (by simp)
      · rename_i pid hg
        split at h
        · rename_i hc
          obtain rfl : pid = v := Option.some.inj h
          rw [Bool.and_eq_true, bne_iff_ne] at hc
          obtain ⟨hne, hre⟩ := hc
          rw [regexTestPlaylistId, Bool.and_eq_true] at hre
          exact ⟨ps, hp, hg, hne, hre.2⟩
        · exact absurd h (by simp)
  · rintro ⟨ps, hp, hg, hne, hall⟩
    have hcond : ((v != "") && regexTestPlaylistId v) = true := by
      rw [Bool.and_eq_true, bne_iff_ne]
      refine ⟨hne, ?_⟩
      rw [regexTestPlaylistId, Bool.and_eq_true]
      refine ⟨?_, hall⟩
      cases v with
      | mk l =>
        cases l with
        | nil => exact absurd rfl hne
        | cons a t => rfl
    simp only [extractPlaylistId, hp, hg, hcond, if_true]

/-- C6: a metadata-lookup failure is fatal exactly when its reason is
`playlistNotFound`, in which case the run returns the 404 response
whatever the remaining collaborator data holds (no further calls);
any other metadata failure is swallowed and the run is the run that
got no details. -/
theorem c6_metadata_failure_policy :
    ∀ (parseUrl : String → Option (List (String × String))) (url pid : String)
      (collab : Collaborator) (e : UpstreamError),
      extractPlaylistId parseUrl url = some pid →
      collab.detailsResult = .error e →
      ((e.reason = some "playlistNotFound" →
          POST true parseUrl (.ok (some url)) collab =
            errorResponse notFoundMsg 404) ∧
       (e.reason ≠ some "playlistNotFound" →
          POST true parseUrl (.ok (some url)) collab =
            POST true parseUrl (.ok (some url))
              { collab with detailsResult := .ok none })) := by
  intro parseUrl url pid collab e hx hd
  obtain ⟨dr, pr, vr⟩ := collab
  simp only at hd
  subst hd
  constructor
  · intro hr
    simp [POST, hx, hr]
  · intro hr
    simp [POST, hx, hr, afterDetails]

/-- Witness for C6: a details lookup failing with reason
`playlistNotFound` yields the 404 response. -/
theorem c6_metadata_failure_policy_witness :
    extractPlaylistId simpleParseUrl "https://x/playlist?list=PL1" =
        some "PL1" ∧
      POST true simpleParseUrl (.ok (some "https://x/playlist?list=PL1"))
          ⟨.error ⟨some ⟨none, some ("playlistNotFound", "nf")⟩, some 404⟩,
            [], []⟩ =
        errorResponse notFoundMsg 404 :=
  ⟨by decide,
    (c6_metadata_failure_policy simpleParseUrl _ "PL1"
        ⟨.error ⟨some ⟨none, some ("playlistNotFound", "nf")⟩, some 404⟩,
          [], []⟩
        ⟨some ⟨none, some ("playlistNotFound", "nf")⟩, some 404⟩
        (by decide) rfl).1 rfl⟩

end YtPlaylist

namespace YtPlaylist

/-- C7: every fatal failure carries exactly one classification of the
taxonomy, determined by the upstream reason code: a missing access token
(with no collaborator consulted) and any unrecognised failure are
generic server errors, a missing or malformed URL is invalid input,
`playlistNotFound` maps to not-found, `forbidden` to forbidden,
`keyInvalid` to invalid-credential, and the quota and rate-limit
reasons to rate-limited; body, page and batch failures all reach the
same catch-block mapping. -/
theorem c7_error_classification :
    (∀ (parseUrl : String → Option (List (String × String)))
        (body : Except UpstreamError (Option String)) (collab : Collaborator),
      classify (POST false parseUrl body collab) = .genericServerError) ∧
    (∀ (parseUrl : String → Option (List (String × String)))
        (collab : Collaborator),
      classify (POST true parseUrl (.ok none) collab) = .invalidInput) ∧
    (∀ (parseUrl : String → Option (List (String × String))) (url : String)
        (collab : Collaborator),
      extractPlaylistId parseUrl url = none →
      classify (POST true parseUrl (.ok (some url)) collab) = .invalidInput) ∧
    (∀ (parseUrl : String → Option (List (String × String)))
        (collab : Collaborator) (e : UpstreamError),
      POST true parseUrl (.error e) collab = catchHandler e) ∧
    (∀ e : UpstreamError, classify (catchHandler e) = upstreamClass e) ∧
    (∀ (parseUrl : String → Option (List (String × String))) (url pid : String)
        (collab : Collaborator) (e : UpstreamError),
      extractPlaylistId parseUrl url = some pid →
      collab.detailsResult = .error e → e.reason = some "playlistNotFound" →
      classify (POST true parseUrl (.ok (some url)) collab) = .notFound) ∧
    (∀ (details : Option PlaylistDetails) (collab : Collaborator)
        (e : UpstreamError),
      runPages collab.pageResults = .error e →
      afterDetails details collab = catchHandler e) ∧
    (∀ (details : Option PlaylistDetails) (collab : Collaborator)
        (e : UpstreamError) (ids : List String),
      runPages collab.pageResults = .ok ids → ids.length ≠ 0 →
      joinBatches collab.videoResults = .error e →
      afterDetails details collab = catchHandler e) ∧
    (∀ (parseUrl : String → Option (List (String × String))) (url pid : String)
        (d : Option PlaylistDetails) (collab : Collaborator) (e : UpstreamError),
      extractPlaylistId parseUrl url = some pid →
      collab.detailsResult = .ok d →
      runPages collab.pageResults = .error e →
      classify (POST true parseUrl (.ok (some url)) collab) =
        upstreamClass e) := by
  refine ⟨fun parseUrl body collab => rfl, fun parseUrl collab => rfl,
    fun parseUrl url collab h => ?_, fun parseUrl collab e => rfl,
    classify_catchHandler, fun parseUrl url pid collab e hx hd hr => ?_,
    fun details collab e h => ?_, fun details collab e ids h h0 hj => ?_,
    fun parseUrl url pid d collab e hx hd hp => ?_⟩
  · simp only [POST, h]
    rfl
  · obtain ⟨dr, pr, vr⟩ := collab
    simp only at hd
    subst hd
    simp [POST, hx, hr, classify, errorResponse]
  · simp [afterDetails, h]
  · simp [afterDetails, h, h0, hj]
  · obtain ⟨dr, pr, vr⟩ := collab
    simp only at hd hp
    subst hd
    have h2 : POST true parseUrl (.ok (some url)) ⟨.ok d, pr, vr⟩ =
        catchHandler e := by
      simp [POST, hx, afterDetails, hp]
    rw [h2]
    exact classify_catchHandler e

/-- Witness for C7: a string that is not a URL yields the invalid-input
classification. -/
theorem c7_error_classification_witness :
    extractPlaylistId simpleParseUrl "nota url" = none ∧
      classify (POST true simpleParseUrl (.ok (some "nota url"))
          ⟨.ok none, [], []⟩) = .invalidInput :=
  ⟨by decide,
    c7_error_classification.2.2.1 simpleParseUrl "nota url" ⟨.ok none, [], []⟩
      (by decide)⟩

/-- C8: a run whose membership fetch yields zero items returns exactly
itemCount 0, totalSeconds 0 and both formatted durations `0:00`,
whatever the batched duration data holds (no duration lookup is
consulted). -/
theorem c8_zero_item_run :
    ∀ (parseUrl : String → Option (List (String × String))) (url pid : String)
      (d : Option PlaylistDetails) (pages : List (Except UpstreamError Page))
      (vids : List (Except UpstreamError (List (Option String)))),
      extractPlaylistId parseUrl url = some pid →
      runPages pages = .ok [] →
      POST true parseUrl (.ok (some url)) ⟨.ok d, pages, vids⟩ =
        { status := 200, error := none, details := d, videoCount := some 0,
          totalWatchTime := some "0:00", averageDuration := some "0:00",
          totalSeconds := some 0 } := by
  intro parseUrl url pid d pages vids hx hpages
  simp [POST, hx, afterDetails, hpages, zeroVideosResponse]

/-- Witness for C8: one empty membership page yields the zero
response. -/
theorem c8_zero_item_run_witness :
    extractPlaylistId simpleParseUrl "https://x/playlist?list=PL1" =
        some "PL1" ∧
      runPages [.ok ⟨[], none⟩] = .ok ([] : List String) ∧
      POST true simpleParseUrl (.ok (some "https://x/playlist?list=PL1"))
          ⟨.ok none, [.ok ⟨[], none⟩], []⟩ =
        { status := 200, error := none, details := none, videoCount := some 0,
          totalWatchTime := some "0:00", averageDuration := some "0:00",
          totalSeconds := some 0 } :=
  ⟨by decide, rfl,
    c8_zero_item_run simpleParseUrl _ "PL1" none _ _ (by decide) rfl⟩

/-- C9: the formatter floors at every stage, so a nonnegative rational
second count formats exactly as its floor does — fractional seconds in
the derived average are dropped, never rounded up. -/
theorem c9_floor_formatting (q : ℚ) (hq : 0 ≤ q) :
    formatDurationRat q = formatDuration ⌊q⌋₊ := by
  have h3600 : ⌊q / (3600 : ℚ)⌋₊ = ⌊q⌋₊ / 3600 := by
    have := Nat.floor_div_nat q 3600
    simpa using this
  have hm : ⌊jsMod q (3600 : ℚ) / (60 : ℚ)⌋₊ = ⌊q⌋₊ % 3600 / 60 := by
    have h1 := Nat.floor_div_nat (jsMod q ((3600 : ℕ) : ℚ)) 60
    have h2 := floor_jsMod q 3600
    simp only [Nat.cast_ofNat] at h1 h2
    rw [h1, h2]
  have hs : ⌊jsMod q (60 : ℚ)⌋₊ = ⌊q⌋₊ % 60 := by
    have := floor_jsMod q 60
    simpa using this
  simp only [formatDurationRat, formatDuration, h3600, hm, hs]

/-- Witness for C9: 7/2 seconds formats as its floor 3 does. -/
theorem c9_floor_formatting_witness :
    (0 : ℚ) ≤ 7 / 2 ∧
      formatDurationRat (7 / 2) = formatDuration ⌊(7 / 2 : ℚ)⌋₊ :=
  ⟨by norm_num, c9_floor_formatting (7 / 2) (by norm_num)⟩

/-- C10: a membership page contributes exactly its items that carry a
(nonempty) video identifier; items with a missing or empty identifier
are skipped, so the reported count equals the number of id-bearing
items and never exceeds the number of returned entries. -/
theorem c10_membership_filter :
    (∀ items : List (Option String),
      (pageVideoIds items).length = items.countP tokenTruthy) ∧
    (∀ items : List (Option String),
      (pageVideoIds items).length ≤ items.length) ∧
    pageVideoIds [some "a", none, some ""] = ["a"] ∧
    (∀ (d : Option PlaylistDetails) (items durs : List (Option String)),
      (POST true simpleParseUrl (.ok (some "https://x/p?list=PL1"))
          ⟨.ok d, [.ok ⟨items, none⟩], [.ok durs]⟩).videoCount =
        some (items.countP tokenTruthy)) := by
  refine ⟨pageVideoIds_length, fun items => ?_, by decide,
    fun d items durs => ?_⟩
  · rw [pageVideoIds_length]
    exact List.countP_le_length _
  · have hx : extractPlaylistId simpleParseUrl "https://x/p?list=PL1" =
        some "PL1" := by decide
    have hrp : runPages [.ok ⟨items, none⟩] = .ok (pageVideoIds items) := rfl
    simp only [POST, hx, afterDetails, hrp]
    by_cases h0 : (pageVideoIds items).length = 0
    · simp [h0, zeroVideosResponse, ← pageVideoIds_length]
    · have hjb : joinBatches [.ok durs] = .ok (durs ++ []) := rfl
      simp [h0, hjb, successResponse, ← pageVideoIds_length]

end YtPlaylist
